import Mathlib

/-!
Shallow embedding of the Hospital-Management-System repository
(src/models.py and src/app.py).

The relational state (sqlite tables `users`, `departments`, `doctors`,
`doctor_availability`, `appointments`) is modelled as lists of rows inside
a `DB` structure, with `AUTOINCREMENT` counters carried explicitly.
Each data-access function of models.py becomes a pure Lean function from
`DB` to a result paired with the next `DB`; the sqlite UNIQUE constraints
of init_db become explicit duplicate checks, raised as `Except.error`
by the raw insert and caught by the wrapper exactly where the Python code
wraps the INSERT in try/except sqlite3.IntegrityError.  Request handlers
of app.py become functions from form input (Option-typed, since
request.form.get returns None for absent fields and Python truthiness
treats the empty string as missing) to a result code plus the next `DB`.

String comparison in the handlers models the Python `<` on strings
(code-point lexicographic), and `parseDate` models
datetime.strptime(date_str, "%Y-%m-%d"): a 4-digit year, a 1-or-2-digit
month in 1..12, a 1-or-2-digit day valid for that month and year, joined
by single dashes with nothing left over.
-/

namespace HMS

/-- Python code-point comparison of character lists, the order behind
`str < str` in the handlers. -/
def charListLt : List Char → List Char → Bool
  | _, [] => false
  | [], _ :: _ => true
  | a :: as, b :: bs =>
      Nat.blt a.toNat b.toNat || (a.toNat == b.toNat && charListLt as bs)

/-- Python string `<` (lexicographic by code point), used by the handlers
for comparisons such as `date_str < date.today().strftime(..)`. -/
def strLt (a b : String) : Bool :=
  charListLt a.data b.data

/-- Split a character list at every dash, as str.split behaves for the
date fields; structural recursion so that concrete inputs evaluate. -/
def splitOnDash : List Char → List (List Char)
  | [] => [[]]
  | c :: rest =>
      let r := splitOnDash rest
      if c == '-' then [] :: r
      else
        match r with
        | [] => [[c]]
        | h :: t => (c :: h) :: t

/-- Numeric value of a list of decimal digit characters. -/
def digitsVal (cs : List Char) : Nat :=
  cs.foldl (fun n c => n * 10 + (c.toNat - 48)) 0

def isLeapYear (y : Nat) : Bool :=
  (y % 4 == 0 && y % 100 != 0) || y % 400 == 0

def daysInMonth (y m : Nat) : Nat :=
  if m == 2 then (if isLeapYear y then 29 else 28)
  else if m == 4 || m == 6 || m == 9 || m == 11 then 30
  else 31

/-- Model of datetime.strptime(s, "%Y-%m-%d"): `some (y, m, d)` when the
string parses as a valid calendar date, `none` when strptime raises
ValueError. -/
def parseDate (s : String) : Option (Nat × Nat × Nat) :=
  match splitOnDash s.data with
  | [ys, ms, ds] =>
      if ys.length == 4 && ys.all Char.isDigit
          && (ms.length == 1 || ms.length == 2) && ms.all Char.isDigit
          && (ds.length == 1 || ds.length == 2) && ds.all Char.isDigit then
        let y := digitsVal ys
        let m := digitsVal ms
        let d := digitsVal ds
        if Nat.blt 0 m && Nat.ble m 12 && Nat.blt 0 d && Nat.ble d (daysInMonth y m) then
          some (y, m, d)
        else none
      else none
  | _ => none

/-- Lexicographic order on parsed (year, month, day) triples, the order of
Python date objects compared in api_get_availability. -/
def dateLt (a b : Nat × Nat × Nat) : Bool :=
  Nat.blt a.1 b.1
    || (a.1 == b.1
        && (Nat.blt a.2.1 b.2.1 || (a.2.1 == b.2.1 && Nat.blt a.2.2 b.2.2)))

/-- Row of the `users` table. -/
structure UserRow where
  id : Nat
  username : String
  password_hash : String
  role : String
  name : String
  contact_info : String
  is_active : Bool
deriving Repr, DecidableEq

/-- Row of the `departments` table. -/
structure DeptRow where
  id : Nat
  name : String
  description : String
deriving Repr, DecidableEq

/-- Row of the `doctors` table (user_id is the PRIMARY KEY). -/
structure DoctorRow where
  user_id : Nat
  specialization_id : Nat
deriving Repr, DecidableEq

/-- Row of the `doctor_availability` table; UNIQUE(doctor_id, date,
start_time). -/
structure AvailRow where
  id : Nat
  doctor_id : Nat
  date : String
  start_time : String
  end_time : String
deriving Repr, DecidableEq

/-- Row of the `appointments` table; UNIQUE(doctor_id, date, time). -/
structure ApptRow where
  id : Nat
  patient_id : Nat
  doctor_id : Nat
  date : String
  time : String
  status : String
deriving Repr, DecidableEq

/-- The sqlite database state, with the AUTOINCREMENT counters explicit. -/
structure DB where
  users : List UserRow
  departments : List DeptRow
  doctors : List DoctorRow
  availability : List AvailRow
  appointments : List ApptRow
  nextUserId : Nat
  nextDeptId : Nat
  nextAvailId : Nat
  nextApptId : Nat
deriving Repr, DecidableEq

/-- hash_password of models.py; the SHA-256 digest is represented
symbolically, which preserves what the claims use (the stored hash is a
function of the password alone). -/
def hash_password (password : String) : String :=
  String.append "sha256:" password

/-- Raw INSERT INTO users: raises IntegrityError (as `Except.error`) on
the UNIQUE(username) constraint, otherwise appends the row and returns
lastrowid. -/
def raw_insert_user (db : DB) (username password name contact_info role : String) :
    Except String (Nat × DB) :=
  if db.users.any (fun u => u.username == username) then
    Except.error "UNIQUE constraint failed: users.username"
  else
    let uid := db.nextUserId
    Except.ok (uid,
      { db with
          users := db.users ++
            [⟨uid, username, hash_password password, role, name, contact_info, true⟩],
          nextUserId := uid + 1 })

/-- create_user of models.py: try the INSERT, catch sqlite3.IntegrityError
and return None, else commit and return the new id. -/
def create_user (db : DB) (username password name contact_info role : String) :
    Option Nat × DB :=
  match raw_insert_user db username password name contact_info role with
  | Except.ok (uid, db1) => (some uid, db1)
  | Except.error _ => (none, db)

/-- add_department of models.py: INSERT OR IGNORE on UNIQUE(name). -/
def add_department (db : DB) (name description : String) : DB :=
  if db.departments.any (fun d => d.name == name) then db
  else
    { db with
        departments := db.departments ++ [⟨db.nextDeptId, name, description⟩],
        nextDeptId := db.nextDeptId + 1 }

/-- Raw INSERT INTO doctors: raises on the PRIMARY KEY user_id
constraint (foreign keys are not enforced by sqlite by default). -/
def raw_insert_doctor (db : DB) (user_id specialization_id : Nat) :
    Except String (DB) :=
  if db.doctors.any (fun d => d.user_id == user_id) then
    Except.error "UNIQUE constraint failed: doctors.user_id"
  else
    Except.ok { db with doctors := db.doctors ++ [⟨user_id, specialization_id⟩] }

/-- add_doctor_profile of models.py: try the INSERT, catch IntegrityError
and return False, else True. -/
def add_doctor_profile (db : DB) (user_id specialization_id : Nat) : Bool × DB :=
  match raw_insert_doctor db user_id specialization_id with
  | Except.ok db1 => (true, db1)
  | Except.error _ => (false, db)

/-- Raw INSERT INTO doctor_availability: raises on
UNIQUE(doctor_id, date, start_time). -/
def raw_insert_availability (db : DB) (doctor_id : Nat)
    (date start_time end_time : String) : Except String (DB) :=
  if db.availability.any
      (fun s => s.doctor_id == doctor_id && s.date == date && s.start_time == start_time) then
    Except.error "UNIQUE constraint failed: doctor_availability"
  else
    Except.ok
      { db with
          availability := db.availability ++
            [⟨db.nextAvailId, doctor_id, date, start_time, end_time⟩],
          nextAvailId := db.nextAvailId + 1 }

/-- set_doctor_availability of models.py: try the INSERT, catch
IntegrityError and return False, else True. -/
def set_doctor_availability (db : DB) (doctor_id : Nat)
    (date start_time end_time : String) : Bool × DB :=
  match raw_insert_availability db doctor_id date start_time end_time with
  | Except.ok db1 => (true, db1)
  | Except.error _ => (false, db)

/-- Raw INSERT INTO appointments with status Booked: raises on
UNIQUE(doctor_id, date, time), a constraint independent of status. -/
def raw_insert_appointment (db : DB) (patient_id doctor_id : Nat)
    (date_str time : String) : Except String (DB) :=
  if db.appointments.any
      (fun a => a.doctor_id == doctor_id && a.date == date_str && a.time == time) then
    Except.error "UNIQUE constraint failed: appointments"
  else
    Except.ok
      { db with
          appointments := db.appointments ++
            [⟨db.nextApptId, patient_id, doctor_id, date_str, time, "Booked"⟩],
          nextApptId := db.nextApptId + 1 }

/-- create_appointment of models.py: try the INSERT, catch IntegrityError
and return False (doctor already booked at this time), else True. -/
def create_appointment (db : DB) (patient_id doctor_id : Nat)
    (date_str time : String) : Bool × DB :=
  match raw_insert_appointment db patient_id doctor_id date_str time with
  | Except.ok db1 => (true, db1)
  | Except.error _ => (false, db)

/-- get_doctor_availability_by_date of models.py: start times declared for
the doctor on the date, minus times of appointments with status Booked
for the doctor on the date. -/
def get_doctor_availability_by_date (db : DB) (doctor_id : Nat)
    (date_str : String) : List String :=
  let available_slots :=
    (db.availability.filter
      (fun s => s.doctor_id == doctor_id && s.date == date_str)).map
      (fun s => s.start_time)
  let booked_times :=
    (db.appointments.filter
      (fun a => a.doctor_id == doctor_id && a.date == date_str && a.status == "Booked")).map
      (fun a => a.time)
  available_slots.filter (fun st => !(booked_times.contains st))

/-- The DELETE FROM users WHERE id = ? statement used by the admin
doctor-creation cleanup. -/
def delete_user (db : DB) (uid : Nat) : DB :=
  { db with users := db.users.filter (fun u => !(u.id == uid)) }

/-- Python truthiness of a form value: request.form.get returns None for
an absent field and the empty string is also falsy under all([..]). -/
def present : Option String → Bool
  | none => false
  | some s => s != ""

/-- Outcome of the doctor_availability handler of app.py, one constructor
per flash-and-redirect exit. -/
inductive AvailabilityResult where
  | fieldsRequired
  | invalidFormat
  | pastDate
  | slotError
  | success
deriving Repr, DecidableEq

/-- The doctor_availability POST handler of app.py: requires all form
fields truthy, parses the date (ValueError flashes invalid format),
rejects a date below today by string comparison, then calls
set_doctor_availability. `today` is date.today().strftime of the
request moment. -/
def doctor_availability (db : DB) (today : String) (doctor_id : Nat)
    (date_str start_time end_time : Option String) : AvailabilityResult × DB :=
  if !(present date_str && present start_time && present end_time) then
    (AvailabilityResult.fieldsRequired, db)
  else
    let d := date_str.getD ""
    let st := start_time.getD ""
    let et := end_time.getD ""
    match parseDate d with
    | none => (AvailabilityResult.invalidFormat, db)
    | some _ =>
        if strLt d today then (AvailabilityResult.pastDate, db)
        else
          match set_doctor_availability db doctor_id d st et with
          | (true, db1) => (AvailabilityResult.success, db1)
          | (false, db1) => (AvailabilityResult.slotError, db1)

/-- Outcome of the patient_book_appointment POST handler of app.py. -/
inductive BookingResult where
  | missingInfo
  | pastDate
  | bookingFailed
  | success
deriving Repr, DecidableEq

/-- The patient_book_appointment POST branch of app.py: requires the form
fields truthy (the doctor_id form string is modelled as an Option Nat,
none standing for an absent or empty field), rejects a date below today
by string comparison, then calls create_appointment.  No date-format
check and no availability-slot check happens here. -/
def patient_book_appointment (db : DB) (today : String) (patient_id : Nat)
    (doctor_id : Option Nat) (date_str time : Option String) : BookingResult × DB :=
  if !(doctor_id.isSome && present date_str && present time) then
    (BookingResult.missingInfo, db)
  else
    let did := doctor_id.getD 0
    let d := date_str.getD ""
    let t := time.getD ""
    if strLt d today then (BookingResult.pastDate, db)
    else
      match create_appointment db patient_id did d t with
      | (true, db1) => (BookingResult.success, db1)
      | (false, db1) => (BookingResult.bookingFailed, db1)

/-- Response of the api_get_availability endpoint of app.py: a slots JSON
body, or the error body with HTTP status 400. -/
inductive ApiResponse where
  | slots (times : List String)
  | invalidFormat400
deriving Repr, DecidableEq

/-- The api_get_availability endpoint of app.py: strptime the date path
segment (ValueError yields the 400 error body), return empty slots when
the parsed date is before today, else return
get_doctor_availability_by_date.  `today` is the parsed date.today(). -/
def api_get_availability (db : DB) (today : Nat × Nat × Nat) (doctor_id : Nat)
    (date_str : String) : ApiResponse :=
  match parseDate date_str with
  | none => ApiResponse.invalidFormat400
  | some d =>
      if dateLt d today then ApiResponse.slots []
      else ApiResponse.slots (get_doctor_availability_by_date db doctor_id date_str)

/-- Outcome of the manage_doctors POST handler of app.py. -/
inductive ManageDoctorsResult where
  | fieldsRequired
  | doctorAdded
  | profileFailed
  | usernameExists
deriving Repr, DecidableEq

/-- The manage_doctors POST branch of app.py: requires username, password,
name and specialization truthy (contact_info is not required), creates the
Doctor user, then the doctor profile; when the profile insert fails the
just-created user row is deleted. -/
def manage_doctors_post (db : DB) (username password name contact_info : String)
    (specialization_id : Option Nat) : ManageDoctorsResult × DB :=
  if !(username != "" && password != "" && name != "" && specialization_id.isSome) then
    (ManageDoctorsResult.fieldsRequired, db)
  else
    match create_user db username password name contact_info "Doctor" with
    | (some uid, db1) =>
        match add_doctor_profile db1 uid (specialization_id.getD 0) with
        | (true, db2) => (ManageDoctorsResult.doctorAdded, db2)
        | (false, db2) => (ManageDoctorsResult.profileFailed, delete_user db2 uid)
    | (none, db1) => (ManageDoctorsResult.usernameExists, db1)

/-- The state right after app startup: init_db created empty tables,
add_admin inserted the admin user, and the three default departments were
seeded. -/
def initDB : DB :=
  { users := [⟨1, "admin", hash_password "adminpassword", "Admin",
               "System Administrator", "", true⟩]
  , departments := [⟨1, "Cardiology", "Heart and blood vessels."⟩,
                    ⟨2, "Pediatrics", "Children health."⟩,
                    ⟨3, "Orthopedics", "Bones and muscles."⟩]
  , doctors := []
  , availability := []
  , appointments := []
  , nextUserId := 2
  , nextDeptId := 4
  , nextAvailId := 1
  , nextApptId := 1 }

/-- Every database write the repository performs (reads do not change the
state; treatments are never written in src). -/
inductive Op where
  | opCreateUser (username password name contact_info role : String)
  | opAddDepartment (name description : String)
  | opAddDoctorProfile (user_id specialization_id : Nat)
  | opSetAvailability (doctor_id : Nat) (date start_time end_time : String)
  | opCreateAppointment (patient_id doctor_id : Nat) (date time : String)
  | opDeleteUser (uid : Nat)
deriving Repr

/-- Effect of one write on the database. -/
def applyOp (db : DB) : Op → DB
  | Op.opCreateUser u p n c r => (create_user db u p n c r).2
  | Op.opAddDepartment n d => add_department db n d
  | Op.opAddDoctorProfile uid sid => (add_doctor_profile db uid sid).2
  | Op.opSetAvailability did d st et => (set_doctor_availability db did d st et).2
  | Op.opCreateAppointment pid did d t => (create_appointment db pid did d t).2
  | Op.opDeleteUser uid => delete_user db uid

/-- Database states reachable from startup through the writes of the
repository. -/
inductive Reachable : DB → Prop
  | init : Reachable initDB
  | step {db : DB} (op : Op) : Reachable db → Reachable (applyOp db op)

/-- No two availability rows share (doctor_id, date, start_time), the
UNIQUE constraint of the doctor_availability table. -/
def availUnique (db : DB) : Prop :=
  db.availability.Pairwise
    (fun s t => ¬(s.doctor_id = t.doctor_id ∧ s.date = t.date ∧ s.start_time = t.start_time))

/-- C1: for every doctor and date, the computed open slots are exactly the
declared availability start times for that doctor on that date minus the
times claimed by an appointment with status Booked for that doctor on
that date; so every returned time is a declared start time, no returned
time has a Booked appointment, and a time whose only appointments are
Cancelled or Completed is included. -/
theorem open_slots_are_declared_minus_booked (db : DB) (did : Nat) (d t : String) :
    t ∈ get_doctor_availability_by_date db did d ↔
      ((∃ s ∈ db.availability, s.doctor_id = did ∧ s.date = d ∧ s.start_time = t) ∧
       ¬ ∃ a ∈ db.appointments,
          a.doctor_id = did ∧ a.date = d ∧ a.status = "Booked" ∧ a.time = t) := by
  simp only [get_doctor_availability_by_date, List.mem_filter, List.mem_map,
    Bool.not_eq_true', Bool.and_eq_true, beq_iff_eq]
  simp only [List.contains, List.elem_eq_mem, decide_eq_false_iff_not, List.mem_map,
    List.mem_filter, Bool.and_eq_true, beq_iff_eq]
  aesop

/-- C2: if a Booked appointment already exists for a (doctor, date, time)
tuple then create_appointment returns False and the database is unchanged;
when no appointment at all exists for the tuple creation succeeds; and
booking the same tuple twice always fails the second time. -/
theorem create_appointment_rejects_taken_tuple (db : DB) (p1 p2 did : Nat) (d t : String) :
    ((∃ a ∈ db.appointments,
        a.doctor_id = did ∧ a.date = d ∧ a.time = t ∧ a.status = "Booked") →
      create_appointment db p1 did d t = (false, db))
    ∧ ((¬ ∃ a ∈ db.appointments, a.doctor_id = did ∧ a.date = d ∧ a.time = t) →
      (create_appointment db p1 did d t).1 = true)
    ∧ (create_appointment (create_appointment db p1 did d t).2 p2 did d t).1 = false := by
  refine ⟨?_, ?_, ?_⟩
  · rintro ⟨a, ha, h1, h2, h3, _⟩
    have hany : db.appointments.any
        (fun a => a.doctor_id == did && a.date == d && a.time == t) = true := by
      simp only [List.any_eq_true, Bool.and_eq_true, beq_iff_eq, and_assoc]
      exact ⟨a, ha, h1, h2, h3⟩
    simp [create_appointment, raw_insert_appointment, hany]
  · intro hno
    cases hcond : db.appointments.any
        (fun a => a.doctor_id == did && a.date == d && a.time == t) with
    | false => simp [create_appointment, raw_insert_appointment, hcond]
    | true =>
        exfalso
        apply hno
        simpa only [List.any_eq_true, Bool.and_eq_true, beq_iff_eq, and_assoc] using hcond
  · cases hcond : db.appointments.any
        (fun a => a.doctor_id == did && a.date == d && a.time == t) with
    | false => simp [create_appointment, raw_insert_appointment, hcond, List.any_append]
    | true => simp [create_appointment, raw_insert_appointment, hcond]

/-- C2 witness: on the startup database nothing is booked yet, so booking
(doctor 2, 2099-01-01, 09:00) succeeds, and a second booking of the very
same tuple fails. -/
theorem create_appointment_rejects_taken_tuple_witness :
    (create_appointment initDB 1 2 "2099-01-01" "09:00").1 = true
    ∧ (create_appointment
        (create_appointment initDB 1 2 "2099-01-01" "09:00").2 3 2 "2099-01-01" "09:00").1
      = false :=
  ⟨(create_appointment_rejects_taken_tuple initDB 1 3 2 "2099-01-01" "09:00").2.1
      (by simp [initDB]),
   (create_appointment_rejects_taken_tuple initDB 1 3 2 "2099-01-01" "09:00").2.2⟩

/-- C3: the repository accepts a booking for a (doctor, date, time) with
no declared availability slot at all: on the startup state, whose
doctor_availability table is empty, the booking handler reports success
and inserts the appointment row, so booking is not restricted to
declared, unconsumed availability slots. -/
theorem booking_without_declared_slot_succeeds :
    initDB.availability = []
    ∧ (patient_book_appointment initDB "2025-01-01" 1 (some 2)
        (some "2099-01-01") (some "09:00")).1 = BookingResult.success
    ∧ (patient_book_appointment initDB "2025-01-01" 1 (some 2)
        (some "2099-01-01") (some "09:00")).2.appointments
      = [⟨1, 1, 2, "2099-01-01", "09:00", "Booked"⟩] :=
  ⟨rfl, rfl, rfl⟩

/-- C4: with all booking form fields supplied, a request whose date is
strictly below today (the string comparison the handler performs) is
answered with the past-date rejection and the database is unchanged,
while a request dated today or later never takes the past-date or
missing-fields exits. -/
theorem booking_rejects_past_dates (db : DB) (today : String) (pid did : Nat)
    (d t : String) (hd : d ≠ "") (ht : t ≠ "") :
    (strLt d today = true →
      patient_book_appointment db today pid (some did) (some d) (some t)
        = (BookingResult.pastDate, db))
    ∧ (strLt d today = false →
      (patient_book_appointment db today pid (some did) (some d) (some t)).1
          ≠ BookingResult.pastDate
      ∧ (patient_book_appointment db today pid (some did) (some d) (some t)).1
          ≠ BookingResult.missingInfo) := by
  constructor
  · intro hlt
    simp [patient_book_appointment, present, hd, ht, hlt]
  · intro hge
    rcases hca : create_appointment db pid did d t with ⟨b, db1⟩
    cases b <;>
      simp [patient_book_appointment, present, hd, ht, hge, hca]

/-- C4 witness: a booking for 2025-01-02 made when today is 2025-06-01 is
rejected as past-dated with the startup database unchanged. -/
theorem booking_rejects_past_dates_witness :
    patient_book_appointment initDB "2025-06-01" 1 (some 2) (some "2025-01-02")
        (some "09:00")
      = (BookingResult.pastDate, initDB) :=
  (booking_rejects_past_dates initDB "2025-06-01" 1 2 "2025-01-02" "09:00"
      (by decide) (by decide)).1 (by decide)

/-- C5: with all availability form fields supplied, a submission whose
date does not parse as a calendar date is rejected with the
invalid-format message and no slot is created, and a well-formed
submission whose date is strictly below today is rejected as past-dated
with no slot created. -/
theorem availability_rejects_past_and_malformed (db : DB) (today : String)
    (did : Nat) (d st et : String) (hd : d ≠ "") (hst : st ≠ "") (het : et ≠ "") :
    (parseDate d = none →
      doctor_availability db today did (some d) (some st) (some et)
        = (AvailabilityResult.invalidFormat, db))
    ∧ (∀ y m dd, parseDate d = some (y, m, dd) → strLt d today = true →
      doctor_availability db today did (some d) (some st) (some et)
        = (AvailabilityResult.pastDate, db)) := by
  constructor
  · intro hp
    simp [doctor_availability, present, hd, hst, het, hp]
  · intro y m dd hp hlt
    simp [doctor_availability, present, hd, hst, het, hp, hlt]

/-- C5 witness: an availability submission for 2025-01-02 made when today
is 2025-06-01 is rejected as past-dated with the startup database
unchanged. -/
theorem availability_rejects_past_and_malformed_witness :
    doctor_availability initDB "2025-06-01" 1 (some "2025-01-02") (some "09:00")
        (some "10:00")
      = (AvailabilityResult.pastDate, initDB) :=
  (availability_rejects_past_and_malformed initDB "2025-06-01" 1 "2025-01-02"
      "09:00" "10:00" (by decide) (by decide) (by decide)).2
    2025 1 2 (by rfl) (by decide)

/-- C10: the open-slots API endpoint answers a well-formed but past date
with an empty slots list whatever the database holds (so the availability
data is never consulted), and answers a malformed date with the
invalid-format body carrying HTTP status 400. -/
theorem api_availability_guards (db : DB) (today : Nat × Nat × Nat) (did : Nat)
    (d : String) :
    (∀ pd, parseDate d = some pd → dateLt pd today = true →
      api_get_availability db today did d = ApiResponse.slots [])
    ∧ (parseDate d = none →
      api_get_availability db today did d = ApiResponse.invalidFormat400) := by
  constructor
  · intro pd hp hlt
    simp [api_get_availability, hp, hlt]
  · intro hp
    simp [api_get_availability, hp]

/-- C10 witness: on the startup database, asking for 2020-05-06 when today
is 2025-01-01 yields the empty slots list. -/
theorem api_availability_guards_witness :
    api_get_availability initDB (2025, 1, 1) 1 "2020-05-06" = ApiResponse.slots [] :=
  (api_availability_guards initDB (2025, 1, 1) 1 "2020-05-06").1
    (2020, 5, 6) (by rfl) (by decide)

/-- Helper: every write preserves uniqueness of
(doctor_id, date, start_time) among availability rows. -/
theorem availUnique_applyOp {db : DB} (h : availUnique db) (op : Op) :
    availUnique (applyOp db op) := by
  cases op with
  | opCreateUser u p n c r =>
      cases hc : db.users.any (fun x => x.username == u) <;>
        simpa [availUnique, applyOp, create_user, raw_insert_user, hc] using h
  | opAddDepartment n d =>
      cases hc : db.departments.any (fun x => x.name == n) <;>
        simpa [availUnique, applyOp, add_department, hc] using h
  | opAddDoctorProfile uid sid =>
      cases hc : db.doctors.any (fun x => x.user_id == uid) <;>
        simpa [availUnique, applyOp, add_doctor_profile, raw_insert_doctor, hc] using h
  | opCreateAppointment pid did d t =>
      cases hc : db.appointments.any
          (fun a => a.doctor_id == did && a.date == d && a.time == t) <;>
        simpa [availUnique, applyOp, create_appointment, raw_insert_appointment, hc] using h
  | opDeleteUser uid =>
      simpa [availUnique, applyOp, delete_user] using h
  | opSetAvailability did d st et =>
      cases hc : db.availability.any
          (fun s => s.doctor_id == did && s.date == d && s.start_time == st) with
      | true =>
          simpa [availUnique, applyOp, set_doctor_availability,
            raw_insert_availability, hc] using h
      | false =>
          have hall : ∀ s ∈ db.availability,
              ¬(s.doctor_id = did ∧ s.date = d ∧ s.start_time = st) := by
            intro s hs hcl
            have hp : (s.doctor_id == did && s.date == d && s.start_time == st) = true := by
              simp only [Bool.and_eq_true, beq_iff_eq]
              exact ⟨⟨hcl.1, hcl.2.1⟩, hcl.2.2⟩
            have h2 : db.availability.any
                (fun s => s.doctor_id == did && s.date == d && s.start_time == st) = true :=
              List.any_eq_true.mpr ⟨s, hs, hp⟩
            rw [hc] at h2
            exact Bool.false_ne_true h2
          simp only [availUnique, applyOp, set_doctor_availability,
            raw_insert_availability, hc, if_false, Bool.false_eq_true]
          rw [List.pairwise_append]
          refine ⟨h, by simp, ?_⟩
          intro s hs b hb hcl
          simp only [List.mem_singleton] at hb
          subst hb
          exact hall s hs ⟨hcl.1, hcl.2.1, hcl.2.2⟩

/-- C6: in every state reachable from startup through the writes of the
repository, no two availability rows share (doctor_id, date, start_time);
and setting availability for a triple that already has a slot returns
False and leaves the database unchanged. -/
theorem availability_unique_in_reachable_states (db : DB) (h : Reachable db) :
    availUnique db
    ∧ ∀ did d st et,
        (∃ s ∈ db.availability,
            s.doctor_id = did ∧ s.date = d ∧ s.start_time = st) →
        set_doctor_availability db did d st et = (false, db) := by
  constructor
  · induction h with
    | init => simp [availUnique, initDB]
    | step op hr ih => exact availUnique_applyOp ih op
  · intro did d st et hdup
    have hany : db.availability.any
        (fun s => s.doctor_id == did && s.date == d && s.start_time == st) = true := by
      simp only [List.any_eq_true, Bool.and_eq_true, beq_iff_eq, and_assoc]
      exact hdup
    simp [set_doctor_availability, raw_insert_availability, hany]

/-- C6 witness: the startup state is reachable, its availability table has
no duplicate triple, and a duplicate insert into it is rejected
unchanged. -/
theorem availability_unique_in_reachable_states_witness :
    availUnique initDB
    ∧ ∀ did d st et,
        (∃ s ∈ initDB.availability,
            s.doctor_id = did ∧ s.date = d ∧ s.start_time = st) →
        set_doctor_availability initDB did d st et = (false, initDB) :=
  availability_unique_in_reachable_states initDB Reachable.init

/-- C7: for each of the four INSERT wrappers, a database integrity
violation raised by the raw statement is caught inside the function and
converted to its failure return value with the database unchanged, so no
integrity exception reaches the caller. -/
theorem integrity_errors_become_failure_returns (db : DB) :
    (∀ u p n c r, (∃ e, raw_insert_user db u p n c r = Except.error e) →
      create_user db u p n c r = (none, db))
    ∧ (∀ uid sid, (∃ e, raw_insert_doctor db uid sid = Except.error e) →
      add_doctor_profile db uid sid = (false, db))
    ∧ (∀ did d st et, (∃ e, raw_insert_availability db did d st et = Except.error e) →
      set_doctor_availability db did d st et = (false, db))
    ∧ (∀ pid did d t, (∃ e, raw_insert_appointment db pid did d t = Except.error e) →
      create_appointment db pid did d t = (false, db)) := by
  refine ⟨?_, ?_, ?_, ?_⟩
  · rintro u p n c r ⟨e, he⟩
    simp [create_user, he]
  · rintro uid sid ⟨e, he⟩
    simp [add_doctor_profile, he]
  · rintro did d st et ⟨e, he⟩
    simp [set_doctor_availability, he]
  · rintro pid did d t ⟨e, he⟩
    simp [create_appointment, he]

/-- C7 witness: inserting a second user named admin into the startup
database raises the UNIQUE violation, which create_user converts to the
None return with the database unchanged. -/
theorem integrity_errors_become_failure_returns_witness :
    create_user initDB "admin" "pw" "X" "Y" "Doctor" = (none, initDB) :=
  (integrity_errors_become_failure_returns initDB).1 "admin" "pw" "X" "Y" "Doctor"
    ⟨"UNIQUE constraint failed: users.username", rfl⟩

/-- A database in which the doctors table already holds a profile for the
user id that the next INSERT INTO users will allocate; this is the state
that makes the second step of the admin doctor-creation flow fail. -/
def dbProfileClash : DB :=
  { users := []
  , departments := []
  , doctors := [⟨5, 1⟩]
  , availability := []
  , appointments := []
  , nextUserId := 5
  , nextDeptId := 1
  , nextAvailId := 1
  , nextApptId := 1 }

/-- C8: in the admin doctor-creation flow, provided no existing user row
carries the id the insert will allocate (always true of sqlite
AUTOINCREMENT ids), a profile-creation failure after the user insert
leaves neither a new user row nor a new doctor-profile row behind, and
success adds exactly one user row and one profile row. -/
theorem manage_doctors_two_step_rollback (db : DB) (u p n c : String) (sid : Nat)
    (hu : u ≠ "") (hp : p ≠ "") (hn : n ≠ "")
    (hfresh : ∀ usr ∈ db.users, usr.id ≠ db.nextUserId) :
    ((manage_doctors_post db u p n c (some sid)).1 = ManageDoctorsResult.profileFailed →
      (manage_doctors_post db u p n c (some sid)).2.users = db.users
      ∧ (manage_doctors_post db u p n c (some sid)).2.doctors = db.doctors)
    ∧ ((manage_doctors_post db u p n c (some sid)).1 = ManageDoctorsResult.doctorAdded →
      ∃ nu np,
        (manage_doctors_post db u p n c (some sid)).2.users = db.users ++ [nu]
        ∧ (manage_doctors_post db u p n c (some sid)).2.doctors = db.doctors ++ [np]) := by
  cases hc1 : db.users.any (fun x => x.username == u) with
  | true =>
      constructor <;>
        · intro habs
          simp [manage_doctors_post, create_user, raw_insert_user, hu, hp, hn, hc1] at habs
  | false =>
      cases hc2 : db.doctors.any (fun x => x.user_id == db.nextUserId) with
      | true =>
          have key : manage_doctors_post db u p n c (some sid)
              = (ManageDoctorsResult.profileFailed,
                 delete_user
                   { db with
                       users := db.users ++
                         [⟨db.nextUserId, u, hash_password p, "Doctor", n, c, true⟩],
                       nextUserId := db.nextUserId + 1 }
                   db.nextUserId) := by
            simp [manage_doctors_post, create_user, raw_insert_user, hu, hp, hn,
              hc1, add_doctor_profile, raw_insert_doctor, hc2]
          constructor
          · intro _
            rw [key]
            have hk : db.users.filter (fun usr => !(usr.id == db.nextUserId)) = db.users :=
              List.filter_eq_self.mpr (fun a ha => by simpa using hfresh a ha)
            exact ⟨by simp [delete_user, List.filter_append, hk], by simp [delete_user]⟩
          · intro habs
            rw [key] at habs
            simp at habs
      | false =>
          constructor
          · intro habs
            simp [manage_doctors_post, create_user, raw_insert_user, hu, hp, hn,
              hc1, add_doctor_profile, raw_insert_doctor, hc2] at habs
          · intro _
            refine ⟨⟨db.nextUserId, u, hash_password p, "Doctor", n, c, true⟩,
              ⟨db.nextUserId, sid⟩, ?_, ?_⟩ <;>
              simp [manage_doctors_post, create_user, raw_insert_user, hu, hp, hn,
                hc1, add_doctor_profile, raw_insert_doctor, hc2]

/-- C8 witness: on a state whose doctors table already holds the id about
to be allocated, profile creation fails and the flow removes the
just-created user row, leaving users and doctors exactly as before. -/
theorem manage_doctors_two_step_rollback_witness :
    (manage_doctors_post dbProfileClash "drjo" "pw" "Jo" "c" (some 1)).2.users
        = dbProfileClash.users
    ∧ (manage_doctors_post dbProfileClash "drjo" "pw" "Jo" "c" (some 1)).2.doctors
        = dbProfileClash.doctors :=
  (manage_doctors_two_step_rollback dbProfileClash "drjo" "pw" "Jo" "c" 1
      (by decide) (by decide) (by decide) (by simp [dbProfileClash])).1 (by rfl)

/-- C9: no write of the repository modifies an existing availability or
appointment row: every operation leaves both tables as a prefix of the
new state, only ever appending rows (the code contains no UPDATE on
either table, so even the status of an appointment never changes). -/
theorem writes_only_append_slots_and_appointments (db : DB) (op : Op) :
    ∃ ext1 ext2,
      (applyOp db op).availability = db.availability ++ ext1
      ∧ (applyOp db op).appointments = db.appointments ++ ext2 := by
  cases op with
  | opCreateUser u p n c r =>
      refine ⟨[], [], ?_, ?_⟩ <;>
        cases hc : db.users.any (fun x => x.username == u) <;>
          simp [applyOp, create_user, raw_insert_user, hc]
  | opAddDepartment n d =>
      refine ⟨[], [], ?_, ?_⟩ <;>
        cases hc : db.departments.any (fun x => x.name == n) <;>
          simp [applyOp, add_department, hc]
  | opAddDoctorProfile uid sid =>
      refine ⟨[], [], ?_, ?_⟩ <;>
        cases hc : db.doctors.any (fun x => x.user_id == uid) <;>
          simp [applyOp, add_doctor_profile, raw_insert_doctor, hc]
  | opDeleteUser uid =>
      exact ⟨[], [], by simp [applyOp, delete_user], by simp [applyOp, delete_user]⟩
  | opSetAvailability did d st et =>
      cases hc : db.availability.any
          (fun s => s.doctor_id == did && s.date == d && s.start_time == st) with
      | true =>
          exact ⟨[], [],
            by simp [applyOp, set_doctor_availability, raw_insert_availability, hc],
            by simp [applyOp, set_doctor_availability, raw_insert_availability, hc]⟩
      | false =>
          exact ⟨[⟨db.nextAvailId, did, d, st, et⟩], [],
            by simp [applyOp, set_doctor_availability, raw_insert_availability, hc],
            by simp [applyOp, set_doctor_availability, raw_insert_availability, hc]⟩
  | opCreateAppointment pid did d t =>
      cases hc : db.appointments.any
          (fun a => a.doctor_id == did && a.date == d && a.time == t) with
      | true =>
          exact ⟨[], [],
            by simp [applyOp, create_appointment, raw_insert_appointment, hc],
            by simp [applyOp, create_appointment, raw_insert_appointment, hc]⟩
      | false =>
          exact ⟨[], [⟨db.nextApptId, pid, did, d, t, "Booked"⟩],
            by simp [applyOp, create_appointment, raw_insert_appointment, hc],
            by simp [applyOp, create_appointment, raw_insert_appointment, hc]⟩

end HMS
